import Mathlib

/-!
Verification development for the guest-customization / reconciliation engine
of the vm-operator repository (package `session`).

The definitions below are a shallow embedding of the Go source file holding
`Session.customize`, `customizeCloudInit`, the `Get*CustSpec` constructors,
`IsCustomizationPendingExtraConfig`, `isCustomizationPendingError`,
`NicInfoToDevicesStatus` and `TemplateVMMetadata`.  External collaborators
(hypervisor calls, the Go template engine, feature-flag service) are modelled
as an explicit environment value; repository code that is not part of the
provided sources (the constants package, the gzip+base64 codec, the
ExtraConfig / vApp-config merge utilities, the network helpers) is modelled
from the specification and marked as such in its doc comment.
-/

/-- A single key/value entry of a VM's extra-configuration
(`vimTypes.OptionValue`; the engine only ever reads string values). -/
structure OptionValue where
  key : String
  value : String
deriving DecidableEq, Repr

/-- Modelled from the spec: one vApp property of the live vApp configuration
(`vimTypes.VAppPropertyInfo`; only identity and value are relevant here). -/
structure VAppPropertyInfo where
  id : String
  value : String
deriving DecidableEq, Repr

/-- The live vApp configuration data (`vimTypes.VmConfigInfo`). -/
structure VmConfigInfo where
  property : List VAppPropertyInfo
deriving DecidableEq, Repr

/-- The live VM's vApp configuration handle; `GetVmConfigInfo` may return nil,
modelled by the optional field. -/
structure VAppConfigInfo where
  vmConfigInfo : Option VmConfigInfo
deriving DecidableEq, Repr

/-- Live configuration snapshot of the target VM
(`vimTypes.VirtualMachineConfigInfo`, restricted to the fields the engine
reads).  An extra-config entry may be nil (`GetOptionValue() == nil`),
modelled via `Option`. -/
structure VirtualMachineConfigInfo where
  extraConfig : List (Option OptionValue) := []
  vAppConfig : Option VAppConfigInfo := none
deriving DecidableEq, Repr

/-- Modelled from the spec: the vApp-config delta produced by the merge
utility (`vimTypes.VmConfigSpec`, restricted to its property list). -/
structure VmConfigSpec where
  property : List VAppPropertyInfo
deriving DecidableEq, Repr

/-- Sparse configuration delta (`vimTypes.VirtualMachineConfigSpec`,
restricted to the fields this engine writes).  Zero value: all defaults. -/
structure VirtualMachineConfigSpec where
  extraConfig : List OptionValue := []
  vAppConfig : Option VmConfigSpec := none
  vAppConfigRemoved : Option Bool := none
deriving DecidableEq, Repr

/-- The zero-value configuration spec the reconciler compares against
(`defaultConfigSpec` in `Session.customize`). -/
def defaultConfigSpec : VirtualMachineConfigSpec := {}

/-- IP configuration of one live network-interface descriptor. -/
structure IPConfig where
  ip : String
  subnetMask : String
  gateway : String
deriving DecidableEq, Repr

/-- One entry of `updateArgs.NetIfList` (network-interface descriptor). -/
structure NetworkInterfaceInfo where
  ipConfiguration : IPConfig
deriving DecidableEq, Repr

/-- Modelled from the spec: per-NIC guest-customization settings produced by
`NetIfList.GetInterfaceCustomizations` (network package, not under the
provided sources); one settings record per descriptor. -/
structure CustomizationAdapterMapping where
  ip : String
  subnetMask : String
  gateway : String
deriving DecidableEq, Repr

/-- Modelled from the spec: `NetIfList.GetInterfaceCustomizations` derives the
per-NIC settings from each descriptor, in input order. -/
def GetInterfaceCustomizations (nifs : List NetworkInterfaceInfo) :
    List CustomizationAdapterMapping :=
  nifs.map fun i =>
    { ip := i.ipConfiguration.ip
      subnetMask := i.ipConfiguration.subnetMask
      gateway := i.ipConfiguration.gateway }

/-- Fixed host name inside a customization identity
(`vimTypes.CustomizationFixedName`). -/
structure CustomizationFixedName where
  name : String
deriving DecidableEq, Repr

/-- Linux-prep identity parameters (`vimTypes.CustomizationLinuxPrep`). -/
structure CustomizationLinuxPrep where
  hostName : CustomizationFixedName
  hwClockUTC : Option Bool
deriving DecidableEq, Repr

/-- Cloud-init prep identity parameters
(`internal.CustomizationCloudinitPrep`). -/
structure CustomizationCloudinitPrep where
  metadata : String
  userdata : String
deriving DecidableEq, Repr

/-- The guest-identity variant carried by a customization spec. -/
inductive CustomizationIdentity where
  | linuxPrep (p : CustomizationLinuxPrep)
  | cloudinitPrep (p : CustomizationCloudinitPrep)
deriving DecidableEq, Repr

/-- Global IP settings of a customization spec
(`vimTypes.CustomizationGlobalIPSettings`). -/
structure CustomizationGlobalIPSettings where
  dnsServerList : List String := []
deriving DecidableEq, Repr

/-- One-shot identity-customization spec (`vimTypes.CustomizationSpec`,
restricted to the fields this engine writes; unset fields keep Go zero
values). -/
structure CustomizationSpec where
  identity : CustomizationIdentity
  globalIPSettings : CustomizationGlobalIPSettings := {}
  nicSettingMap : List CustomizationAdapterMapping := []
deriving DecidableEq, Repr

/-- The distinguished hypervisor fault kinds this engine inspects. -/
inductive VimFault where
  | customizationPending
  | otherFault (msg : String)
deriving DecidableEq, Repr

/-- Errors flowing through the engine: a hypervisor task error carrying a
fault, or any other error value. -/
inductive GoError where
  | taskError (fault : VimFault)
  | simple (msg : String)
deriving DecidableEq, Repr

/-- Metadata record of `VMUpdateArgs`: free-form string mapping plus the
declared transport kind (a string constant of the `v1alpha1` API). -/
structure VMMetadataRec where
  data : List (String × String) := []
  transport : String := ""
deriving DecidableEq, Repr

/-- Per-pass argument bag (`VMUpdateArgs`, declared in the session package
outside the provided sources; fields modelled from the spec's data model:
metadata record, ordered NIC descriptor list, DNS-server list). -/
structure VMUpdateArgs where
  vmMetadata : VMMetadataRec := {}
  netIfList : List NetworkInterfaceInfo := []
  dnsServers : List String := []
deriving DecidableEq, Repr

/-- The desired-state VM object, restricted to the identity and annotation
fields this engine reads. -/
structure VirtualMachine where
  name : String := ""
  uid : String := ""
  annotations : List (String × String) := []
deriving DecidableEq, Repr

/-- Per-pass VM context (`context.VirtualMachineContext`, restricted to the
VM object; the logger is ignored). -/
structure VirtualMachineContext where
  vm : VirtualMachine := {}
deriving DecidableEq, Repr

/-- Go map indexing over a string-keyed association list: value of the first
entry with the key, or the zero value `""` when absent. -/
def mapGet (m : List (String × String)) (k : String) : String :=
  match m.find? (fun p => p.1 == k) with
  | some p => p.2
  | none => ""

/-- Modelled from the spec: the declared metadata-transport value `CloudInit`
(`v1alpha1` API constant, not under the provided sources). -/
def VirtualMachineMetadataCloudInitTransport : String := "CloudInit"

/-- Modelled from the spec: the declared metadata-transport value `OvfEnv`. -/
def VirtualMachineMetadataOvfEnvTransport : String := "OvfEnv"

/-- Modelled from the spec: the declared metadata-transport value
`ExtraConfig`. -/
def VirtualMachineMetadataExtraConfigTransport : String := "ExtraConfig"

/-- Modelled from the spec: the pending-customization marker key
(`constants.GOSCPendingExtraConfigKey`, constants package not under the
provided sources). -/
def GOSCPendingExtraConfigKey : String := "tools.deployPkg.fileName"

/-- Modelled from the spec: the cloud-init sub-kind annotation key
(`constants.CloudInitTypeAnnotation`). -/
def CloudInitTypeAnnotationKey : String := "vmoperator.vmware.com/cloudinit-type"

/-- Modelled from the spec: the cloud-init sub-kind value selecting the
cloud-init-prep path (`constants.CloudInitTypeValueCloudInitPrep`). -/
def CloudInitTypeValueCloudInitPrep : String := "cloudinit-prep"

/-- Modelled from the spec: the default cloud-init sub-kind value
(`constants.CloudInitTypeValueGuestInfo`). -/
def CloudInitTypeValueGuestInfo : String := "guestinfo"

/-- Modelled from the spec: the customization-bypass annotation key
(`constants.VSphereCustomizationBypassKey`). -/
def VSphereCustomizationBypassKey : String := "vmoperator.vmware.com/vsphere-customization"

/-- Modelled from the spec: the bypass disable sentinel value
(`constants.VSphereCustomizationBypassDisable`). -/
def VSphereCustomizationBypassDisable : String := "disable"

/-- Modelled from the spec: the guest-info key name prefix copied verbatim by
the ExtraConfig transport (`constants.ExtraConfigGuestInfoPrefix`). -/
def ExtraConfigGuestInfoPrefixKey : String := "guestinfo."

/-- Modelled from the spec: the guest-visible cloud-init metadata payload key
(`constants.CloudInitGuestInfoMetadata`). -/
def CloudInitGuestInfoMetadata : String := "guestinfo.metadata"

/-- Modelled from the spec: the metadata-encoding marker key
(`constants.CloudInitGuestInfoMetadataEncoding`). -/
def CloudInitGuestInfoMetadataEncoding : String := "guestinfo.metadata.encoding"

/-- Modelled from the spec: the guest-visible cloud-init userdata payload key
(`constants.CloudInitGuestInfoUserdata`). -/
def CloudInitGuestInfoUserdata : String := "guestinfo.userdata"

/-- Modelled from the spec: the userdata-encoding marker key
(`constants.CloudInitGuestInfoUserdataEncoding`). -/
def CloudInitGuestInfoUserdataEncoding : String := "guestinfo.userdata.encoding"

/-- Go `strings.HasPrefix`, computed on the character lists. -/
def strHasPrefix (pre s : String) : Bool := pre.data.isPrefixOf s.data

/-- Modelled from the spec: the pure content function of the deterministic
gzip+base64 encoder — same input always yields the same output, and the
result is decodable back to the input (the tag marks encoded text). -/
def gzipB64Str (s : String) : String := "b64gz:" ++ s

/-- Modelled from the spec: the pure content function of the tolerant decoder
— validly encoded text is decoded, anything else is returned unchanged. -/
def ungzipB64Str (s : String) : String :=
  if strHasPrefix "b64gz:" s then s.drop 6 else s

/-- Modelled from the spec: `EncodeGzipBase64` (session utility not under the
provided sources) — deterministic gzip+base64 encoding; encoding to an
in-memory buffer does not fail. -/
def EncodeGzipBase64 (s : String) : Except GoError String := .ok (gzipB64Str s)

/-- Modelled from the spec: `util.TryToDecodeBase64Gzip` — decodes when the
input is validly encoded and otherwise passes the input through unchanged;
never errors on already-plain input. -/
def TryToDecodeBase64Gzip (s : String) : Except GoError String :=
  .ok (ungzipB64Str s)

/-- Modelled from the spec: `MergeExtraConfig` (ExtraConfig merge utility,
external collaborator) — updates override matching keys and all other
existing (non-nil) entries are retained unchanged. -/
def MergeExtraConfig (existing : List (Option OptionValue))
    (updates : List (String × String)) : List OptionValue :=
  ((existing.filterMap id).filter
      (fun ov => (updates.find? (fun p => p.1 == ov.key)).isNone))
    ++ updates.map (fun p => { key := p.1, value := p.2 })

/-- Modelled from the spec: `GetMergedvAppConfigSpec` (vApp-config merge
utility, external collaborator) — metadata values override matching
properties, all other properties are retained. -/
def GetMergedvAppConfigSpec (data : List (String × String))
    (props : List VAppPropertyInfo) : VmConfigSpec :=
  { property := props.map fun p =>
      if (data.find? (fun q => q.1 == p.id)).isSome then
        { p with value := mapGet data p.id }
      else p }

/-- Modelled from the spec: the declarative network plan built by
`NetIfList.GetNetplan` from the NIC descriptors, the live ethernet cards and
the DNS list (network package not under the provided sources); deterministic
in its inputs. -/
structure Netplan where
  nifs : List NetworkInterfaceInfo
  ethCards : List String
  dns : List String
deriving DecidableEq, Repr

/-- Modelled from the spec: `NetIfList.GetNetplan`. -/
def GetNetplan (nifs : List NetworkInterfaceInfo) (ethCards : List String)
    (dns : List String) : Netplan :=
  { nifs := nifs, ethCards := ethCards, dns := dns }

/-- Number of set bits in one octet of a dotted-quad subnet mask. -/
def octetBits (n : Nat) : Nat :=
  (List.range 8).foldl (fun a i => a + n / 2 ^ i % 2) 0

/-- Splitting a character list at every dot (Go `strings.Split` on a one-dot
separator), with the reversed characters read so far as accumulator. -/
def splitOnDot : List Char → List Char → List (List Char)
  | acc, [] => [acc.reverse]
  | acc, c :: rest =>
    if c = '.' then acc.reverse :: splitOnDot [] rest
    else splitOnDot (c :: acc) rest

/-- Decimal parse of a character list (`strconv`-style: digits only),
computed on the characters. -/
def digitsToNat? (l : List Char) : Option Nat :=
  if l ≠ [] ∧ l.all (fun c => c.isDigit) then
    some (l.foldl (fun a c => a * 10 + (c.toNat - 48)) 0)
  else none

/-- Modelled from the spec: prefix length of a dotted-quad subnet mask is its
total set-bit count. -/
def maskPrefixLen (mask : String) : Nat :=
  ((splitOnDot [] mask.data).map (fun l => octetBits ((digitsToNat? l).getD 0))).foldl
    (fun a b => a + b) 0

/-- Modelled from the spec: `network.ToCidrNotation` — CIDR notation
`ip/prefixlen` with the prefix length derived from the subnet mask bit
count (source name carries a suffix this development cannot use). -/
def CidrNotationOf (ip mask : String) : String :=
  ip ++ "/" ++ toString (maskPrefixLen mask)

/-- `IsCustomizationPendingExtraConfig`: walks the live extra-config entries
and, at the first non-nil entry under the pending-customization key, reports
whether its value is non-empty (source lines 28-37). -/
def IsCustomizationPendingExtraConfig : List (Option OptionValue) → Bool
  | [] => false
  | o :: rest =>
    match o with
    | some ov =>
      if ov.key = GOSCPendingExtraConfigKey then decide (ov.value ≠ "")
      else IsCustomizationPendingExtraConfig rest
    | none => IsCustomizationPendingExtraConfig rest

/-- `isCustomizationPendingError`: true exactly for a task error whose fault
is `CustomizationPending` (source lines 39-46). -/
def isCustomizationPendingError : GoError → Bool
  | .taskError .customizationPending => true
  | _ => false

/-- `GetLinuxPrepCustSpec` (source lines 48-61): Linux-prep identity spec
with the VM name as fixed host name, UTC hardware clock, the DNS-server list
and the per-NIC settings. -/
def GetLinuxPrepCustSpec (vmName : String) (updateArgs : VMUpdateArgs) :
    CustomizationSpec :=
  { identity := .linuxPrep
      { hostName := { name := vmName }, hwClockUTC := some true }
    globalIPSettings := { dnsServerList := updateArgs.dnsServers }
    nicSettingMap := GetInterfaceCustomizations updateArgs.netIfList }

/-- The cloud-init metadata document (source lines 63-69). -/
structure CloudInitMetadata where
  instanceID : String
  localHostname : String
  hostname : String
  network : Netplan
  publicKeys : String
deriving DecidableEq, Repr

/-- Modelled from the spec: deterministic textual rendering of a `Netplan`
for the yaml document (yaml library is an external collaborator). -/
def netplanText (n : Netplan) : String :=
  String.intercalate ";" (n.nifs.map fun i =>
      i.ipConfiguration.ip ++ "/" ++ i.ipConfiguration.subnetMask ++ "/"
        ++ i.ipConfiguration.gateway)
    ++ "|" ++ String.intercalate ";" n.ethCards
    ++ "|" ++ String.intercalate ";" n.dns

/-- Modelled from the spec: deterministic yaml rendering of the cloud-init
metadata document (marshalling this struct to an in-memory buffer does not
fail). -/
def yamlMarshalCloudInitMetadata (m : CloudInitMetadata) : String :=
  "instance-id: " ++ m.instanceID
    ++ "\nlocal-hostname: " ++ m.localHostname
    ++ "\nhostname: " ++ m.hostname
    ++ "\nnetwork: " ++ netplanText m.network
    ++ "\npublic-keys: " ++ m.publicKeys

/-- `GetCloudInitMetadata` (source lines 71-89): builds the metadata document
from the VM identity, the netplan and the `ssh-public-keys` entry and
serializes it. -/
def GetCloudInitMetadata (vm : VirtualMachine) (netplan : Netplan)
    (data : List (String × String)) : Except GoError String :=
  .ok (yamlMarshalCloudInitMetadata
    { instanceID := vm.uid
      localHostname := vm.name
      hostname := vm.name
      network := netplan
      publicKeys := mapGet data "ssh-public-keys" })

/-- `GetCloudInitPrepCustSpec` (source lines 91-112): cloud-init prep
identity spec; userdata is normalized to plain text first when non-empty. -/
def GetCloudInitPrepCustSpec (cloudInitMetadata : String)
    (updateArgs : VMUpdateArgs) : Except GoError CustomizationSpec :=
  let userdata := mapGet updateArgs.vmMetadata.data "user-data"
  if userdata = "" then
    .ok { identity := .cloudinitPrep
            { metadata := cloudInitMetadata, userdata := userdata } }
  else
    match TryToDecodeBase64Gzip userdata with
    | .error e => .error e
    | .ok plainText =>
      .ok { identity := .cloudinitPrep
              { metadata := cloudInitMetadata, userdata := plainText } }

/-- `GetCloudInitGuestInfoCustSpec` (source lines 114-164): always re-encodes
the metadata and sets its encoding marker; userdata is looked up under
`user-data` and, failing that, the legacy `value` key, and only when
non-empty is it normalized, re-encoded and stored with its marker; the
resulting delta merges the live extra config with the updates and sets the
vApp-config removal flag. -/
def GetCloudInitGuestInfoCustSpec (cloudInitMetadata : String)
    (config : VirtualMachineConfigInfo) (updateArgs : VMUpdateArgs) :
    Except GoError VirtualMachineConfigSpec :=
  match EncodeGzipBase64 cloudInitMetadata with
  | .error e => .error e
  | .ok encodedMetadata =>
    let base := [(CloudInitGuestInfoMetadata, encodedMetadata),
                 (CloudInitGuestInfoMetadataEncoding, "gzip+base64")]
    let data :=
      if mapGet updateArgs.vmMetadata.data "user-data" ≠ "" then
        mapGet updateArgs.vmMetadata.data "user-data"
      else if mapGet updateArgs.vmMetadata.data "value" ≠ "" then
        mapGet updateArgs.vmMetadata.data "value"
      else ""
    if data = "" then
      .ok { extraConfig := MergeExtraConfig config.extraConfig base
            vAppConfigRemoved := some true }
    else
      match TryToDecodeBase64Gzip data with
      | .error e => .error e
      | .ok plainText =>
        match EncodeGzipBase64 plainText with
        | .error e => .error e
        | .ok encodedUserdata =>
          .ok { extraConfig := MergeExtraConfig config.extraConfig
                  (base ++ [(CloudInitGuestInfoUserdata, encodedUserdata),
                            (CloudInitGuestInfoUserdataEncoding, "gzip+base64")])
                vAppConfigRemoved := some true }

/-- `GetExtraConfigCustSpec` (source lines 166-183): keeps exactly the
metadata entries whose key carries the guest-info prefix; nil when there are
none, otherwise a delta merging them over the live extra config. -/
def GetExtraConfigCustSpec (config : VirtualMachineConfigInfo)
    (updateArgs : VMUpdateArgs) : Option VirtualMachineConfigSpec :=
  let extraConfig := updateArgs.vmMetadata.data.filter
    (fun p => strHasPrefix ExtraConfigGuestInfoPrefixKey p.1)
  if extraConfig.isEmpty then none
  else some { extraConfig := MergeExtraConfig config.extraConfig extraConfig }

/-- `GetOvfEnvCustSpec` (source lines 185-201): nil when the live VM has no
vApp configuration or its config info is nil; otherwise a delta carrying the
merged vApp-config property spec. -/
def GetOvfEnvCustSpec (config : VirtualMachineConfigInfo)
    (updateArgs : VMUpdateArgs) : Option VirtualMachineConfigSpec :=
  match config.vAppConfig with
  | none => none
  | some vApp =>
    match vApp.vmConfigInfo with
    | none => none
    | some vAppConfigInfo =>
      some { vAppConfig := some (GetMergedvAppConfigSpec
               updateArgs.vmMetadata.data vAppConfigInfo.property) }

/-- Outcome of handing one template string to the Go template engine:
parse failure, execution failure, or success with the rendered output. -/
inductive TemplOutcome where
  | parseError
  | execError
  | success (out : String)
deriving DecidableEq, Repr

/-- The external collaborators of one reconciliation pass: the feature-flag
service, the template engine (fed with the per-pass template data), and the
session/resource-VM calls. -/
structure SessionEnv where
  fssEnabled : Bool
  templ : String → String → TemplOutcome
  getNetworkDevices : Except GoError (List String)
  reconfigure : VirtualMachineConfigSpec → Option GoError
  customizeCall : CustomizationSpec → Option GoError

/-- Non-overlapping left-to-right replacement of every occurrence of a
pattern in a character list (Go `strings.ReplaceAll`), with an explicit fuel
bound on the number of consumed characters (each step consumes at least one
character, so fuel equal to the input length is exact). -/
def replaceGo (pat rep : List Char) : Nat → List Char → List Char
  | 0, l => l
  | fuel + 1, l =>
    match l with
    | [] => []
    | c :: rest =>
      if pat ≠ [] ∧ pat.isPrefixOf (c :: rest) then
        rep ++ replaceGo pat rep fuel ((c :: rest).drop pat.length)
      else
        c :: replaceGo pat rep fuel rest

/-- Non-overlapping left-to-right replacement of every occurrence of a
pattern in a character list (Go `strings.ReplaceAll`). -/
def replaceList (pat rep : List Char) (l : List Char) : List Char :=
  replaceGo pat rep l.length l

/-- Whether a pattern occurs in a character list (Go `strings.Contains`). -/
def containsList (pat : List Char) : List Char → Bool
  | [] => pat.isPrefixOf []
  | c :: rest => pat.isPrefixOf (c :: rest) || containsList pat rest

/-- Non-overlapping left-to-right replacement of every occurrence of a
pattern (Go `strings.ReplaceAll`). -/
def replaceAll (s pat rep : String) : String :=
  { data := replaceList pat.data rep.data s.data }

/-- Whether a pattern occurs in a string (Go `strings.Contains`). -/
def containsSub (s pat : String) : Bool := containsList pat.data s.data

/-- `normalizeStr` inside `TemplateVMMetadata` (source lines 344-350):
un-escapes `\x5c\x7b` and `\x5c\x7d` to literal braces. -/
def normalizeStr (str : String) : String :=
  if containsSub str "\\\x7b" || containsSub str "\\\x7d" then
    replaceAll (replaceAll str "\\\x7b" "\x7b") "\\\x7d" "\x7d"
  else str

/-- `renderTemplate` inside `TemplateVMMetadata` (source lines 352-367): on a
parse or execution failure the escape-normalized original string is
returned; on success the escape-normalized engine output. -/
def renderTemplate (env : SessionEnv) (name templateStr : String) : String :=
  match env.templ name templateStr with
  | .parseError => normalizeStr templateStr
  | .execError => normalizeStr templateStr
  | .success out => normalizeStr out

/-- `TemplateVMMetadata` (source lines 325-373): renders every metadata value
through the template engine, updating the metadata mapping in place (the
template data built from the VM object and the computed network status is
consumed by the engine, which is abstracted into the environment). -/
def TemplateVMMetadata (env : SessionEnv) (vmCtx : VirtualMachineContext)
    (updateArgs : VMUpdateArgs) : VMUpdateArgs :=
  let data := updateArgs.vmMetadata.data.map
    (fun p => (p.1, renderTemplate env p.1 p.2))
  { updateArgs with vmMetadata := { updateArgs.vmMetadata with data := data } }

/-- The metadata mapping the pass actually works with (source lines 246-248):
templated in place when the feature flag is enabled, untouched otherwise. -/
def templatedArgs (env : SessionEnv) (vmCtx : VirtualMachineContext)
    (updateArgs : VMUpdateArgs) : VMUpdateArgs :=
  if env.fssEnabled then TemplateVMMetadata env vmCtx updateArgs
  else updateArgs

/-- `customizeCloudInit` (source lines 203-238): fetches the live network
devices, assembles netplan and metadata document, then selects between the
cloud-init prep identity spec and the guest-info config delta based on the
cloud-init sub-kind annotation (every value other than the prep value takes
the guest-info path). -/
def customizeCloudInit (env : SessionEnv) (vmCtx : VirtualMachineContext)
    (config : VirtualMachineConfigInfo) (updateArgs : VMUpdateArgs) :
    Except GoError (Option VirtualMachineConfigSpec × Option CustomizationSpec) :=
  match env.getNetworkDevices with
  | .error e => .error e
  | .ok ethCards =>
    let netplan := GetNetplan updateArgs.netIfList ethCards updateArgs.dnsServers
    match GetCloudInitMetadata vmCtx.vm netplan updateArgs.vmMetadata.data with
    | .error e => .error e
    | .ok cloudInitMetadata =>
      if mapGet vmCtx.vm.annotations CloudInitTypeAnnotationKey
          = CloudInitTypeValueCloudInitPrep then
        match GetCloudInitPrepCustSpec cloudInitMetadata updateArgs with
        | .error e => .error e
        | .ok cust => .ok (none, some cust)
      else
        match GetCloudInitGuestInfoCustSpec cloudInitMetadata config updateArgs with
        | .error e => .error e
        | .ok cfg => .ok (some cfg, none)

/-- The transport switch of `Session.customize` (source lines 250-271): per
declared transport, produce the optional config spec and optional identity
spec. -/
def selectSpecs (env : SessionEnv) (vmCtx : VirtualMachineContext)
    (config : VirtualMachineConfigInfo) (updateArgs : VMUpdateArgs) :
    Except GoError (Option VirtualMachineConfigSpec × Option CustomizationSpec) :=
  let transport := updateArgs.vmMetadata.transport
  if transport = VirtualMachineMetadataCloudInitTransport then
    customizeCloudInit env vmCtx config updateArgs
  else if transport = VirtualMachineMetadataOvfEnvTransport then
    .ok (GetOvfEnvCustSpec config updateArgs,
         some (GetLinuxPrepCustSpec vmCtx.vm.name updateArgs))
  else if transport = VirtualMachineMetadataExtraConfigTransport then
    .ok (GetExtraConfigCustSpec config updateArgs,
         some (GetLinuxPrepCustSpec vmCtx.vm.name updateArgs))
  else
    .ok (none, some (GetLinuxPrepCustSpec vmCtx.vm.name updateArgs))

/-- The config-spec block of `Session.customize` (source lines 273-282):
a non-nil spec deep-equal to the zero value is skipped; otherwise it is
submitted via `Reconfigure`, whose failure is fatal.  Returns the error and
the list of submitted specs. -/
def reconfigurePhase (env : SessionEnv)
    (configSpec : Option VirtualMachineConfigSpec) :
    Option GoError × List VirtualMachineConfigSpec :=
  match configSpec with
  | none => (none, [])
  | some cs =>
    if cs = defaultConfigSpec then (none, [])
    else
      match env.reconfigure cs with
      | some e => (some e, [cs])
      | none => (none, [cs])

/-- The cust-spec block of `Session.customize` (source lines 284-304): the
bypass annotation and the pending marker each skip with success; otherwise
the spec is submitted via `Customize`, and a failure is swallowed exactly
when it is the customization-pending fault.  Returns the error and the list
of submitted specs. -/
def customizePhase (env : SessionEnv) (vmCtx : VirtualMachineContext)
    (config : VirtualMachineConfigInfo) (custSpec : Option CustomizationSpec) :
    Option GoError × List CustomizationSpec :=
  match custSpec with
  | none => (none, [])
  | some cs =>
    if mapGet vmCtx.vm.annotations VSphereCustomizationBypassKey
        = VSphereCustomizationBypassDisable then (none, [])
    else if IsCustomizationPendingExtraConfig config.extraConfig then (none, [])
    else
      match env.customizeCall cs with
      | none => (none, [cs])
      | some e =>
        if isCustomizationPendingError e then (none, [cs]) else (some e, [cs])

/-- Observable outcome of one reconciliation pass: the returned error and the
specs submitted through the two remote calls. -/
structure CustomizeTrace where
  err : Option GoError
  reconfigures : List VirtualMachineConfigSpec
  customizeSubmits : List CustomizationSpec
deriving DecidableEq, Repr

/-- `Session.customize` (source lines 240-307): optional templating, the
transport switch, the reconfiguration block and the customization block, in
that order; a selector or reconfiguration failure aborts the pass. -/
def Session.customize (env : SessionEnv) (vmCtx : VirtualMachineContext)
    (config : VirtualMachineConfigInfo) (updateArgs0 : VMUpdateArgs) :
    CustomizeTrace :=
  let updateArgs := templatedArgs env vmCtx updateArgs0
  match selectSpecs env vmCtx config updateArgs with
  | .error e => { err := some e, reconfigures := [], customizeSubmits := [] }
  | .ok (configSpec, custSpec) =>
    match reconfigurePhase env configSpec with
    | (some e, rl) => { err := some e, reconfigures := rl, customizeSubmits := [] }
    | (none, rl) =>
      let r := customizePhase env vmCtx config custSpec
      { err := r.1, reconfigures := rl, customizeSubmits := r.2 }

/-- `NicInfoToDevicesStatus` (source lines 309-322). -/
structure NetworkDeviceStatus where
  gateway4 : String
  ipAddresses : List String
deriving DecidableEq, Repr

/-- `NicInfoToDevicesStatus` (source lines 309-322): one status entry per NIC
descriptor, in input order, carrying the gateway and the CIDR-notation
address. -/
def NicInfoToDevicesStatus (vmCtx : VirtualMachineContext)
    (updateArgs : VMUpdateArgs) : List NetworkDeviceStatus :=
  updateArgs.netIfList.map fun info =>
    { gateway4 := info.ipConfiguration.gateway
      ipAddresses := [CidrNotationOf info.ipConfiguration.ip
                        info.ipConfiguration.subnetMask] }

section HelperLemmas

/-- Go map indexing over an association list headed by one pair. -/
theorem mapGet_cons (a b : String) (rest : List (String × String)) (k : String) :
    mapGet ((a, b) :: rest) k = if a == k then b else mapGet rest k := by
  by_cases h : a == k
  · simp [mapGet, List.find?_cons, h]
  · simp [mapGet, List.find?_cons, h]

/-- Looking a key up after rewriting every value of a duplicate-free mapping
returns the rewritten value of that key. -/
theorem mapGet_map_nodup (f : String → String → String) :
    ∀ (data : List (String × String)) (k v : String),
      (data.map Prod.fst).Nodup → (k, v) ∈ data →
      mapGet (data.map (fun p => (p.1, f p.1 p.2))) k = f k v := by
  intro data
  induction data with
  | nil => intro k v _ hmem; cases hmem
  | cons a rest ih =>
    intro k v hnd hmem
    obtain ⟨a1, a2⟩ := a
    rw [List.map_cons, mapGet_cons]
    rw [List.map_cons] at hnd
    rcases List.nodup_cons.mp hnd with ⟨hnotin, hnd2⟩
    by_cases h : a1 == k
    · have hk : a1 = k := by simpa using h
      rcases List.mem_cons.mp hmem with heq | hmem2
      · obtain ⟨h1, h2⟩ := Prod.mk.injEq k v a1 a2 ▸ heq
        rw [if_pos h, h2, ← h1]
      · exfalso
        have hmk : k ∈ rest.map Prod.fst := List.mem_map_of_mem Prod.fst hmem2
        rw [hk] at hnotin
        exact hnotin hmk
    · rw [if_neg h]
      rcases List.mem_cons.mp hmem with heq | hmem2
      · exfalso
        obtain ⟨h1, h2⟩ := Prod.mk.injEq k v a1 a2 ▸ heq
        exact h (by simp [h1])
      · exact ih k v hnd2 hmem2

/-- When the live extra-config keys are duplicate-free, an entry under the
pending key with a non-empty value makes the pending check true. -/
theorem isPending_of_mem :
    ∀ (l : List (Option OptionValue)) (v : String),
      (l.filterMap (fun o => Option.map OptionValue.key o)).Nodup →
      some { key := GOSCPendingExtraConfigKey, value := v } ∈ l → v ≠ "" →
      IsCustomizationPendingExtraConfig l = true := by
  intro l
  induction l with
  | nil => intro v _ hmem; cases hmem
  | cons o rest ih =>
    intro v hnd hmem hv
    cases o with
    | none =>
      rcases List.mem_cons.mp hmem with heq | hmem2
      · exact absurd heq (by simp)
      · simp only [IsCustomizationPendingExtraConfig]
        exact ih v (by simpa using hnd) hmem2 hv
    | some ov =>
      have hnd2 : (ov.key :: rest.filterMap (fun o => Option.map OptionValue.key o)).Nodup := by
        simpa using hnd
      rcases List.nodup_cons.mp hnd2 with ⟨hnotin, hnd3⟩
      simp only [IsCustomizationPendingExtraConfig]
      by_cases hk : ov.key = GOSCPendingExtraConfigKey
      · rw [if_pos hk]
        rcases List.mem_cons.mp hmem with heq | hmem2
        · have hov : ov = { key := GOSCPendingExtraConfigKey, value := v } := by
            exact (Option.some.injEq _ _ ▸ heq).symm
          rw [hov]
          exact decide_eq_true hv
        · exfalso
          have hmemk : GOSCPendingExtraConfigKey ∈
              rest.filterMap (fun o => Option.map OptionValue.key o) :=
            List.mem_filterMap.mpr
              ⟨some { key := GOSCPendingExtraConfigKey, value := v }, hmem2, rfl⟩
          exact hnotin (hk ▸ hmemk)
      · rw [if_neg hk]
        rcases List.mem_cons.mp hmem with heq | hmem2
        · exfalso
          have hov : ov = { key := GOSCPendingExtraConfigKey, value := v } := by
            exact (Option.some.injEq _ _ ▸ heq).symm
          exact hk (by rw [hov])
        · exact ih v hnd3 hmem2 hv

/-- The cloud-init prep constructor never fails (the modelled decoder is
total). -/
theorem getCloudInitPrepCustSpec_isOk (m : String) (args : VMUpdateArgs) :
    ∃ c, GetCloudInitPrepCustSpec m args = .ok c := by
  simp only [GetCloudInitPrepCustSpec, TryToDecodeBase64Gzip]
  split
  · exact ⟨_, rfl⟩
  · exact ⟨_, rfl⟩

/-- The cloud-init guest-info constructor never fails (the modelled codec is
total). -/
theorem getCloudInitGuestInfoCustSpec_isOk (m : String)
    (config : VirtualMachineConfigInfo) (args : VMUpdateArgs) :
    ∃ c, GetCloudInitGuestInfoCustSpec m config args = .ok c := by
  simp only [GetCloudInitGuestInfoCustSpec, EncodeGzipBase64, TryToDecodeBase64Gzip]
  repeat' split
  all_goals exact ⟨_, rfl⟩

/-- When the live network devices are available, the transport selector never
fails. -/
theorem selectSpecs_isOk (env : SessionEnv) (vmCtx : VirtualMachineContext)
    (config : VirtualMachineConfigInfo) (args : VMUpdateArgs)
    (l : List String) (hnet : env.getNetworkDevices = .ok l) :
    ∃ p, selectSpecs env vmCtx config args = .ok p := by
  simp only [selectSpecs]
  split
  · simp only [customizeCloudInit, GetCloudInitMetadata, hnet]
    split
    · obtain ⟨c, hc⟩ := getCloudInitPrepCustSpec_isOk
        (yamlMarshalCloudInitMetadata
          { instanceID := vmCtx.vm.uid, localHostname := vmCtx.vm.name,
            hostname := vmCtx.vm.name,
            network := GetNetplan args.netIfList l args.dnsServers,
            publicKeys := mapGet args.vmMetadata.data "ssh-public-keys" }) args
      rw [hc]
      exact ⟨_, rfl⟩
    · obtain ⟨c, hc⟩ := getCloudInitGuestInfoCustSpec_isOk
        (yamlMarshalCloudInitMetadata
          { instanceID := vmCtx.vm.uid, localHostname := vmCtx.vm.name,
            hostname := vmCtx.vm.name,
            network := GetNetplan args.netIfList l args.dnsServers,
            publicKeys := mapGet args.vmMetadata.data "ssh-public-keys" })
        config args
      rw [hc]
      exact ⟨_, rfl⟩
  · split
    · exact ⟨_, rfl⟩
    · split
      · exact ⟨_, rfl⟩
      · exact ⟨_, rfl⟩

/-- When every reconfiguration call succeeds, the config-spec block reports
no error. -/
theorem reconfigurePhase_fst_none (env : SessionEnv)
    (o : Option VirtualMachineConfigSpec)
    (hrec : ∀ cs, env.reconfigure cs = none) :
    (reconfigurePhase env o).1 = none := by
  cases o with
  | none => rfl
  | some cs =>
    simp only [reconfigurePhase]
    split
    · rfl
    · rw [hrec cs]

/-- The config-spec block never submits the zero-value spec and submits at
most one spec. -/
theorem reconfigurePhase_submits (env : SessionEnv)
    (o : Option VirtualMachineConfigSpec) :
    defaultConfigSpec ∉ (reconfigurePhase env o).2 ∧
      (reconfigurePhase env o).2.length ≤ 1 := by
  cases o with
  | none => simp [reconfigurePhase]
  | some cs =>
    simp only [reconfigurePhase]
    split
    · simp
    · rename_i hne
      cases h : env.reconfigure cs with
      | none =>
        refine ⟨?_, by simp⟩
        simp only [List.mem_singleton]
        intro hd
        exact hne hd.symm
      | some e =>
        refine ⟨?_, by simp⟩
        simp only [List.mem_singleton]
        intro hd
        exact hne hd.symm

/-- A true pending check makes the cust-spec block a successful no-op. -/
theorem customizePhase_pending (env : SessionEnv)
    (vmCtx : VirtualMachineContext) (config : VirtualMachineConfigInfo)
    (o : Option CustomizationSpec)
    (hp : IsCustomizationPendingExtraConfig config.extraConfig = true) :
    customizePhase env vmCtx config o = (none, []) := by
  cases o with
  | none => rfl
  | some cs =>
    simp only [customizePhase, hp]
    split
    · rfl
    · simp

/-- The bypass annotation makes the cust-spec block a successful no-op. -/
theorem customizePhase_bypass (env : SessionEnv)
    (vmCtx : VirtualMachineContext) (config : VirtualMachineConfigInfo)
    (o : Option CustomizationSpec)
    (hb : mapGet vmCtx.vm.annotations VSphereCustomizationBypassKey
        = VSphereCustomizationBypassDisable) :
    customizePhase env vmCtx config o = (none, []) := by
  cases o with
  | none => rfl
  | some cs =>
    simp only [customizePhase]
    rw [if_pos hb]

/-- Templating never changes the declared transport. -/
theorem templatedArgs_transport (env : SessionEnv)
    (vmCtx : VirtualMachineContext) (args : VMUpdateArgs) :
    (templatedArgs env vmCtx args).vmMetadata.transport
      = args.vmMetadata.transport := by
  unfold templatedArgs TemplateVMMetadata
  split <;> rfl

end HelperLemmas

section ClaimC1

/-- Concrete environment for the C1 counterexample. -/
def envC1 : SessionEnv :=
  { fssEnabled := false
    templ := fun _ _ => .parseError
    getNetworkDevices := .ok []
    reconfigure := fun _ => none
    customizeCall := fun _ => none }

/-- Concrete VM context for the C1 counterexample. -/
def ctxC1 : VirtualMachineContext := { vm := { name := "vm-a", uid := "uid-a" } }

/-- Concrete live configuration for the C1 counterexample. -/
def confC1 : VirtualMachineConfigInfo := {}

/-- Concrete update args for the C1 counterexample: ExtraConfig transport
with one guest-info-prefixed metadata entry. -/
def argsC1 : VMUpdateArgs :=
  { vmMetadata := { data := [("guestinfo.hello", "world")],
                    transport := VirtualMachineMetadataExtraConfigTransport } }

/-- Claim C1 counterexample: on the ExtraConfig transport with a prefixed
metadata key present, the transport selector returns a non-nil configuration
spec and a non-nil identity-customization spec from the same branch, so the
two outputs are not mutually exclusive. -/
theorem c1_counterexample :
    ((selectSpecs envC1 ctxC1 confC1 argsC1).toOption.map
      (fun p => p.1.isSome && p.2.isSome)) = some true := by decide

/-- Claim C1 (amended): for the CloudInit transport exactly one of
(configSpec, custSpec) is non-nil on success; for every other transport
(OvfEnv, ExtraConfig, unset/other) the identity-customization spec is always
non-nil, and the configuration spec may additionally be non-nil. -/
theorem c1_amended (env : SessionEnv) (vmCtx : VirtualMachineContext)
    (config : VirtualMachineConfigInfo) (args : VMUpdateArgs)
    (p : Option VirtualMachineConfigSpec × Option CustomizationSpec)
    (h : selectSpecs env vmCtx config args = .ok p) :
    (args.vmMetadata.transport = VirtualMachineMetadataCloudInitTransport →
      (p.1 = none ∧ p.2.isSome = true) ∨ (p.1.isSome = true ∧ p.2 = none)) ∧
    (args.vmMetadata.transport ≠ VirtualMachineMetadataCloudInitTransport →
      p.2.isSome = true) := by
  constructor
  · intro ht
    simp only [selectSpecs] at h
    rw [if_pos ht] at h
    cases hnd : env.getNetworkDevices with
    | error e =>
      simp only [customizeCloudInit, hnd] at h
      exact Except.noConfusion h
    | ok l =>
      simp only [customizeCloudInit, GetCloudInitMetadata, hnd] at h
      split at h
      · split at h
        · simp at h
        · left
          obtain rfl : p = _ := (Except.ok.injEq _ _ ▸ h).symm
          exact ⟨rfl, rfl⟩
      · split at h
        · simp at h
        · right
          obtain rfl : p = _ := (Except.ok.injEq _ _ ▸ h).symm
          exact ⟨rfl, rfl⟩
  · intro ht
    simp only [selectSpecs] at h
    rw [if_neg ht] at h
    split at h
    · obtain rfl : p = _ := (Except.ok.injEq _ _ ▸ h).symm
      rfl
    · split at h
      · obtain rfl : p = _ := (Except.ok.injEq _ _ ▸ h).symm
        rfl
      · obtain rfl : p = _ := (Except.ok.injEq _ _ ▸ h).symm
        rfl

/-- Claim C1 amended-theorem witness at a concrete non-CloudInit input. -/
theorem c1_amended_witness :
    (argsC1.vmMetadata.transport ≠ VirtualMachineMetadataCloudInitTransport) ∧
    ∃ p, selectSpecs envC1 ctxC1 confC1 argsC1 = .ok p ∧ p.2.isSome = true := by
  refine ⟨by decide, ?_⟩
  obtain ⟨p, hp⟩ := selectSpecs_isOk envC1 ctxC1 confC1 argsC1 [] rfl
  exact ⟨p, hp, (c1_amended envC1 ctxC1 confC1 argsC1 p hp).2 (by decide)⟩

end ClaimC1

section ClaimC6

/-- Concrete environment for the C6 counterexample: every remote call
succeeds. -/
def envC6 : SessionEnv :=
  { fssEnabled := false
    templ := fun _ _ => .parseError
    getNetworkDevices := .ok []
    reconfigure := fun _ => none
    customizeCall := fun _ => none }

/-- Concrete VM context for the C6 counterexample. -/
def ctxC6 : VirtualMachineContext := { vm := { name := "vm-b", uid := "uid-b" } }

/-- Concrete live configuration for the C6 counterexample. -/
def confC6 : VirtualMachineConfigInfo := {}

/-- Concrete update args for the C6 counterexample: CloudInit transport,
guest-info sub-kind (annotation unset). -/
def argsC6 : VMUpdateArgs :=
  { vmMetadata := { data := [],
                    transport := VirtualMachineMetadataCloudInitTransport } }

/-- Claim C6 counterexample: with an unchanged live configuration snapshot
and unchanged update args, the second pass is the same pure invocation as
the first, and it still performs a reconfiguration call (the CloudInit
guest-info spec always sets the vApp-removal flag, so it is never equal to
the zero-value spec) — the reconciler does not skip on the second pass. -/
theorem c6_counterexample :
    (Session.customize envC6 ctxC6 confC6 argsC6).reconfigures ≠ [] := by decide

/-- Claim C6 (amended): the selector is a pure function, so two passes over
the same snapshot and args trivially produce deep-equal specs; in every pass
at most one configuration spec is submitted and a spec deep-equal to the
zero-value spec is never submitted; the reconfiguration call is skipped only
when the produced spec equals the zero-value spec. -/
theorem c6_amended (env : SessionEnv) (vmCtx : VirtualMachineContext)
    (config : VirtualMachineConfigInfo) (args : VMUpdateArgs) :
    defaultConfigSpec ∉ (Session.customize env vmCtx config args).reconfigures ∧
    (Session.customize env vmCtx config args).reconfigures.length ≤ 1 := by
  simp only [Session.customize]
  split
  · simp
  · rename_i cs cu heq
    have hsub := reconfigurePhase_submits env cs
    split
    · rename_i e rl heq2
      rw [heq2] at hsub
      simpa using hsub
    · rename_i rl heq2
      rw [heq2] at hsub
      simpa using hsub

end ClaimC6

section ClaimC3

/-- Claim C3 (amended): when the live extra-configuration carries the pending
marker (an entry under the pending key with a non-empty value, keys
duplicate-free), the reconciler never submits a customization request; and
the pass returns success provided the earlier steps cannot fail (network
devices available and every reconfiguration call succeeding). -/
theorem c3_amended (env : SessionEnv) (vmCtx : VirtualMachineContext)
    (config : VirtualMachineConfigInfo) (args : VMUpdateArgs) (v : String)
    (hnd : (config.extraConfig.filterMap
      (fun o => Option.map OptionValue.key o)).Nodup)
    (hmem : some { key := GOSCPendingExtraConfigKey, value := v }
      ∈ config.extraConfig)
    (hv : v ≠ "") :
    (Session.customize env vmCtx config args).customizeSubmits = [] ∧
    ((∀ cs, env.reconfigure cs = none) →
      (∃ l, env.getNetworkDevices = .ok l) →
      (Session.customize env vmCtx config args).err = none) := by
  have hp := isPending_of_mem config.extraConfig v hnd hmem hv
  simp only [Session.customize]
  split
  · rename_i e heq
    refine ⟨rfl, ?_⟩
    rintro hrec ⟨l, hnet⟩
    obtain ⟨p, hok⟩ :=
      selectSpecs_isOk env vmCtx config (templatedArgs env vmCtx args) l hnet
    rw [heq] at hok
    exact Except.noConfusion hok
  · rename_i cs cu heq
    split
    · rename_i e rl heq2
      refine ⟨rfl, ?_⟩
      rintro hrec ⟨l, hnet⟩
      have h1 := reconfigurePhase_fst_none env cs hrec
      rw [heq2] at h1
      exact Option.noConfusion h1
    · rename_i rl heq2
      have hcp := customizePhase_pending env vmCtx config cu hp
      rw [hcp]
      exact ⟨rfl, fun _ _ => rfl⟩

/-- Concrete environment for the C3 witness: all remote calls benign, the
customization call flagged so any submission would be visible. -/
def envW3 : SessionEnv :=
  { fssEnabled := false
    templ := fun _ _ => .parseError
    getNetworkDevices := .ok []
    reconfigure := fun _ => none
    customizeCall := fun _ => some (.simple "should-not-be-called") }

/-- Concrete VM context for the C3 witness. -/
def ctxW3 : VirtualMachineContext := { vm := { name := "vm-c", uid := "uid-c" } }

/-- Concrete live configuration for the C3 witness: pending marker set. -/
def confW3 : VirtualMachineConfigInfo :=
  { extraConfig := [some { key := GOSCPendingExtraConfigKey,
                           value := "in-progress" }] }

/-- Concrete update args for the C3 witness. -/
def argsW3 : VMUpdateArgs :=
  { vmMetadata := { data := [("guestinfo.a", "1")],
                    transport := VirtualMachineMetadataExtraConfigTransport } }

/-- Claim C3 amended-theorem witness at a concrete pending-marker input. -/
theorem c3_amended_witness :
    (Session.customize envW3 ctxW3 confW3 argsW3).customizeSubmits = [] ∧
    (Session.customize envW3 ctxW3 confW3 argsW3).err = none := by
  have h := c3_amended envW3 ctxW3 confW3 argsW3 "in-progress"
    (by decide) (by decide) (by decide)
  exact ⟨h.1, h.2 (fun cs => rfl) ⟨[], rfl⟩⟩

/-- Concrete environment for the C3 counterexample: the reconfiguration call
fails. -/
def envX3 : SessionEnv :=
  { fssEnabled := false
    templ := fun _ _ => .parseError
    getNetworkDevices := .ok []
    reconfigure := fun _ => some (.simple "boom")
    customizeCall := fun _ => none }

/-- Concrete VM context for the C3 counterexample. -/
def ctxX3 : VirtualMachineContext := { vm := { name := "vm-d", uid := "uid-d" } }

/-- Concrete live configuration for the C3 counterexample: pending marker
set. -/
def confX3 : VirtualMachineConfigInfo :=
  { extraConfig := [some { key := GOSCPendingExtraConfigKey,
                           value := "in-progress" }] }

/-- Concrete update args for the C3 counterexample. -/
def argsX3 : VMUpdateArgs :=
  { vmMetadata := { data := [("guestinfo.a", "1")],
                    transport := VirtualMachineMetadataExtraConfigTransport } }

/-- Claim C3 counterexample: the pending marker is set and the customization
call is indeed never submitted, yet the pass does not return success — the
reconfiguration step of the same pass fails and its error is surfaced. -/
theorem c3_counterexample :
    IsCustomizationPendingExtraConfig confX3.extraConfig = true ∧
    (Session.customize envX3 ctxX3 confX3 argsX3).customizeSubmits = [] ∧
    (Session.customize envX3 ctxX3 confX3 argsX3).err
      = some (GoError.simple "boom") := by decide

end ClaimC3

section ClaimC8

/-- Claim C8 (amended): with the bypass-disable annotation the reconciler
never submits a customization request, whatever the transport and whether or
not a cust spec was produced; the pass returns success provided the earlier
steps cannot fail (network devices available and every reconfiguration call
succeeding). -/
theorem c8_amended (env : SessionEnv) (vmCtx : VirtualMachineContext)
    (config : VirtualMachineConfigInfo) (args : VMUpdateArgs)
    (hbyp : mapGet vmCtx.vm.annotations VSphereCustomizationBypassKey
      = VSphereCustomizationBypassDisable) :
    (Session.customize env vmCtx config args).customizeSubmits = [] ∧
    ((∀ cs, env.reconfigure cs = none) →
      (∃ l, env.getNetworkDevices = .ok l) →
      (Session.customize env vmCtx config args).err = none) := by
  simp only [Session.customize]
  split
  · rename_i e heq
    refine ⟨rfl, ?_⟩
    rintro hrec ⟨l, hnet⟩
    obtain ⟨p, hok⟩ :=
      selectSpecs_isOk env vmCtx config (templatedArgs env vmCtx args) l hnet
    rw [heq] at hok
    exact Except.noConfusion hok
  · rename_i cs cu heq
    split
    · rename_i e rl heq2
      refine ⟨rfl, ?_⟩
      rintro hrec ⟨l, hnet⟩
      have h1 := reconfigurePhase_fst_none env cs hrec
      rw [heq2] at h1
      exact Option.noConfusion h1
    · rename_i rl heq2
      have hcp := customizePhase_bypass env vmCtx config cu hbyp
      rw [hcp]
      exact ⟨rfl, fun _ _ => rfl⟩

/-- Concrete environment for the C8 witness. -/
def envW8 : SessionEnv :=
  { fssEnabled := false
    templ := fun _ _ => .parseError
    getNetworkDevices := .ok []
    reconfigure := fun _ => none
    customizeCall := fun _ => some (.simple "should-not-be-called") }

/-- Concrete VM context for the C8 witness: bypass-disable annotation set. -/
def ctxW8 : VirtualMachineContext :=
  { vm := { name := "vm-e", uid := "uid-e",
            annotations := [(VSphereCustomizationBypassKey,
                             VSphereCustomizationBypassDisable)] } }

/-- Concrete live configuration for the C8 witness. -/
def confW8 : VirtualMachineConfigInfo := {}

/-- Concrete update args for the C8 witness: unset transport, so a Linux-prep
cust spec is produced. -/
def argsW8 : VMUpdateArgs := {}

/-- Claim C8 amended-theorem witness at a concrete bypass-annotated input. -/
theorem c8_amended_witness :
    (Session.customize envW8 ctxW8 confW8 argsW8).customizeSubmits = [] ∧
    (Session.customize envW8 ctxW8 confW8 argsW8).err = none := by
  have h := c8_amended envW8 ctxW8 confW8 argsW8 (by decide)
  exact ⟨h.1, h.2 (fun cs => rfl) ⟨[], rfl⟩⟩

/-- Concrete environment for the C8 counterexample: the reconfiguration call
fails. -/
def envX8 : SessionEnv :=
  { fssEnabled := false
    templ := fun _ _ => .parseError
    getNetworkDevices := .ok []
    reconfigure := fun _ => some (.simple "boom")
    customizeCall := fun _ => none }

/-- Concrete VM context for the C8 counterexample: bypass-disable annotation
set. -/
def ctxX8 : VirtualMachineContext :=
  { vm := { name := "vm-f", uid := "uid-f",
            annotations := [(VSphereCustomizationBypassKey,
                             VSphereCustomizationBypassDisable)] } }

/-- Concrete live configuration for the C8 counterexample. -/
def confX8 : VirtualMachineConfigInfo := {}

/-- Concrete update args for the C8 counterexample: ExtraConfig transport
with a prefixed key, so both a config spec and a cust spec are produced. -/
def argsX8 : VMUpdateArgs :=
  { vmMetadata := { data := [("guestinfo.a", "1")],
                    transport := VirtualMachineMetadataExtraConfigTransport } }

/-- Claim C8 counterexample: the bypass-disable annotation is set and a
non-nil cust spec is produced, the customization call is indeed never
submitted, yet the pass does not return success — the reconfiguration step
of the same pass fails and its error is surfaced. -/
theorem c8_counterexample :
    mapGet ctxX8.vm.annotations VSphereCustomizationBypassKey
      = VSphereCustomizationBypassDisable ∧
    ((selectSpecs envX8 ctxX8 confX8
        (templatedArgs envX8 ctxX8 argsX8)).toOption.map
      (fun p => p.2.isSome)) = some true ∧
    (Session.customize envX8 ctxX8 confX8 argsX8).customizeSubmits = [] ∧
    (Session.customize envX8 ctxX8 confX8 argsX8).err
      = some (GoError.simple "boom") := by decide

end ClaimC8

section ClaimC4

/-- When the selector succeeded and the config-spec block reported no error,
the pass outcome is exactly the cust-spec block's outcome. -/
theorem customize_eq_ok (env : SessionEnv) (vmCtx : VirtualMachineContext)
    (config : VirtualMachineConfigInfo) (args : VMUpdateArgs)
    (p : Option VirtualMachineConfigSpec × Option CustomizationSpec)
    (hsel : selectSpecs env vmCtx config (templatedArgs env vmCtx args) = .ok p)
    (rl : List VirtualMachineConfigSpec)
    (hrp : reconfigurePhase env p.1 = (none, rl)) :
    Session.customize env vmCtx config args =
      { err := (customizePhase env vmCtx config p.2).1
        reconfigures := rl
        customizeSubmits := (customizePhase env vmCtx config p.2).2 } := by
  obtain ⟨p1, p2⟩ := p
  simp only [Session.customize, hsel]
  simp only at hrp
  simp only [hrp]

/-- Claim C4: when the pass reaches the customization call (cust spec
produced, no bypass, no pending marker) and the call fails, the pass returns
success exactly when the failure is the customization-pending fault; any
other failure is surfaced as the pass's error. -/
theorem c4_confirmed (env : SessionEnv) (vmCtx : VirtualMachineContext)
    (config : VirtualMachineConfigInfo) (args : VMUpdateArgs)
    (cfgOpt : Option VirtualMachineConfigSpec) (cs : CustomizationSpec)
    (e : GoError)
    (hsel : selectSpecs env vmCtx config (templatedArgs env vmCtx args)
      = .ok (cfgOpt, some cs))
    (hrec : (reconfigurePhase env cfgOpt).1 = none)
    (hbyp : mapGet vmCtx.vm.annotations VSphereCustomizationBypassKey
      ≠ VSphereCustomizationBypassDisable)
    (hpend : IsCustomizationPendingExtraConfig config.extraConfig = false)
    (hcall : env.customizeCall cs = some e) :
    (isCustomizationPendingError e = true →
      (Session.customize env vmCtx config args).err = none) ∧
    (isCustomizationPendingError e = false →
      (Session.customize env vmCtx config args).err = some e) := by
  rcases hq : reconfigurePhase env cfgOpt with ⟨e1, rl⟩
  have he1 : e1 = none := by rw [hq] at hrec; exact hrec
  subst he1
  have hc := customize_eq_ok env vmCtx config args (cfgOpt, some cs) hsel rl hq
  rw [hc]
  simp only [customizePhase]
  rw [if_neg hbyp, if_neg (by simp [hpend])]
  simp only [hcall]
  constructor
  · intro hpe
    simp [hpe]
  · intro hpe
    simp [hpe]

/-- Concrete environment for the C4 witness: the customization call fails
with the pending fault. -/
def envW4 : SessionEnv :=
  { fssEnabled := false
    templ := fun _ _ => .parseError
    getNetworkDevices := .ok []
    reconfigure := fun _ => none
    customizeCall := fun _ => some (.taskError .customizationPending) }

/-- Concrete VM context for the C4 witness. -/
def ctxW4 : VirtualMachineContext := { vm := { name := "vm-g", uid := "uid-g" } }

/-- Concrete live configuration for the C4 witness. -/
def confW4 : VirtualMachineConfigInfo := {}

/-- Concrete update args for the C4 witness: unset transport. -/
def argsW4 : VMUpdateArgs := {}

/-- Claim C4 witness: with a pending-fault customization failure the pass
returns success. -/
theorem c4_confirmed_witness :
    (Session.customize envW4 ctxW4 confW4 argsW4).err = none := by
  have h := c4_confirmed envW4 ctxW4 confW4 argsW4 none
    (GetLinuxPrepCustSpec ctxW4.vm.name argsW4) (.taskError .customizationPending)
    rfl rfl (by decide) (by decide) rfl
  exact h.1 rfl

end ClaimC4

section ClaimC10

/-- On the OvfEnv transport the selector returns the Linux-prep spec and
whatever `GetOvfEnvCustSpec` produced; here specialized to a nil config
spec. -/
theorem selectSpecs_ovf_none (env : SessionEnv) (vmCtx : VirtualMachineContext)
    (config : VirtualMachineConfigInfo) (a : VMUpdateArgs)
    (htr : a.vmMetadata.transport = VirtualMachineMetadataOvfEnvTransport)
    (hnone : GetOvfEnvCustSpec config a = none) :
    selectSpecs env vmCtx config a
      = .ok (none, some (GetLinuxPrepCustSpec vmCtx.vm.name a)) := by
  have h1 : a.vmMetadata.transport ≠ VirtualMachineMetadataCloudInitTransport := by
    rw [htr]; decide
  simp only [selectSpecs]
  rw [if_neg h1, if_pos htr, hnone]

/-- Claim C10: on the OvfEnv transport, when the live VM has no vApp
configuration (or its config info is nil), the selector produces a nil config
spec alongside the Linux-prep spec, and the pass makes no reconfiguration
call. -/
theorem c10_confirmed (env : SessionEnv) (vmCtx : VirtualMachineContext)
    (config : VirtualMachineConfigInfo) (args : VMUpdateArgs)
    (htr : args.vmMetadata.transport = VirtualMachineMetadataOvfEnvTransport)
    (hva : config.vAppConfig = none ∨
      ∃ w, config.vAppConfig = some w ∧ w.vmConfigInfo = none) :
    selectSpecs env vmCtx config args
      = .ok (none, some (GetLinuxPrepCustSpec vmCtx.vm.name args)) ∧
    (Session.customize env vmCtx config args).reconfigures = [] := by
  have hnone : ∀ a : VMUpdateArgs, GetOvfEnvCustSpec config a = none := by
    intro a
    rcases hva with h | ⟨w, hw, hwi⟩
    · simp [GetOvfEnvCustSpec, h]
    · simp [GetOvfEnvCustSpec, hw, hwi]
  refine ⟨selectSpecs_ovf_none env vmCtx config args htr (hnone args), ?_⟩
  have htr2 : (templatedArgs env vmCtx args).vmMetadata.transport
      = VirtualMachineMetadataOvfEnvTransport := by
    rw [templatedArgs_transport]; exact htr
  have hsel2 := selectSpecs_ovf_none env vmCtx config
    (templatedArgs env vmCtx args) htr2 (hnone _)
  have hc := customize_eq_ok env vmCtx config args
    (none, some (GetLinuxPrepCustSpec vmCtx.vm.name (templatedArgs env vmCtx args)))
    hsel2 [] rfl
  rw [hc]

/-- Concrete environment for the C10 witness. -/
def envW10 : SessionEnv :=
  { fssEnabled := false
    templ := fun _ _ => .parseError
    getNetworkDevices := .ok []
    reconfigure := fun _ => none
    customizeCall := fun _ => none }

/-- Concrete VM context for the C10 witness. -/
def ctxW10 : VirtualMachineContext := { vm := { name := "vm-h", uid := "uid-h" } }

/-- Concrete live configuration for the C10 witness: no vApp configuration. -/
def confW10 : VirtualMachineConfigInfo := {}

/-- Concrete update args for the C10 witness: OvfEnv transport. -/
def argsW10 : VMUpdateArgs :=
  { vmMetadata := { data := [("a", "b")],
                    transport := VirtualMachineMetadataOvfEnvTransport } }

/-- Claim C10 witness at a concrete OvfEnv input without vApp config. -/
theorem c10_confirmed_witness :
    selectSpecs envW10 ctxW10 confW10 argsW10
      = .ok (none, some (GetLinuxPrepCustSpec ctxW10.vm.name argsW10)) ∧
    (Session.customize envW10 ctxW10 confW10 argsW10).reconfigures = [] :=
  c10_confirmed envW10 ctxW10 confW10 argsW10 rfl (Or.inl rfl)

end ClaimC10

section ClaimC9

/-- Claim C9: the network-device status list has exactly one entry per NIC
descriptor, in input order; each entry carries the descriptor's gateway and
the singleton CIDR-notation address derived from its IP and subnet mask. -/
theorem c9_confirmed (vmCtx : VirtualMachineContext) (args : VMUpdateArgs) :
    (NicInfoToDevicesStatus vmCtx args).length = args.netIfList.length ∧
    ∀ i (hi : i < args.netIfList.length)
      (hi2 : i < (NicInfoToDevicesStatus vmCtx args).length),
      ((NicInfoToDevicesStatus vmCtx args).get ⟨i, hi2⟩).gateway4
          = (args.netIfList.get ⟨i, hi⟩).ipConfiguration.gateway ∧
      ((NicInfoToDevicesStatus vmCtx args).get ⟨i, hi2⟩).ipAddresses
          = [CidrNotationOf (args.netIfList.get ⟨i, hi⟩).ipConfiguration.ip
              (args.netIfList.get ⟨i, hi⟩).ipConfiguration.subnetMask] := by
  constructor
  · simp [NicInfoToDevicesStatus]
  · intro i hi hi2
    constructor
    · simp [NicInfoToDevicesStatus, List.get_eq_getElem, List.getElem_map]
    · simp [NicInfoToDevicesStatus, List.get_eq_getElem, List.getElem_map]

/-- Concrete VM context for the C9 witness. -/
def ctxW9 : VirtualMachineContext := { vm := { name := "vm-i", uid := "uid-i" } }

/-- Concrete update args for the C9 witness: the spec's example NIC plus a
DNS server. -/
def argsW9 : VMUpdateArgs :=
  { netIfList := [{ ipConfiguration :=
        { ip := "10.0.0.5", subnetMask := "255.255.255.0",
          gateway := "10.0.0.1" } }]
    dnsServers := ["8.8.8.8"] }

/-- Claim C9 witness: the spec's example NIC produces gateway `10.0.0.1` and
address list `["10.0.0.5/24"]`. -/
theorem c9_confirmed_witness :
    ((NicInfoToDevicesStatus ctxW9 argsW9).get ⟨0, by decide⟩).gateway4
        = "10.0.0.1" ∧
    ((NicInfoToDevicesStatus ctxW9 argsW9).get ⟨0, by decide⟩).ipAddresses
        = ["10.0.0.5/24"] := by
  have h := (c9_confirmed ctxW9 argsW9).2 0 (by decide) (by decide)
  exact ⟨h.1.trans (by decide), h.2.trans (by decide)⟩

end ClaimC9

section ClaimC2

/-- Concrete environment for the C2 counterexample: feature flag disabled. -/
def envC2 : SessionEnv :=
  { fssEnabled := false
    templ := fun _ _ => .parseError
    getNetworkDevices := .ok []
    reconfigure := fun _ => none
    customizeCall := fun _ => none }

/-- Concrete VM context for the C2 counterexample. -/
def ctxC2 : VirtualMachineContext := { vm := { name := "vm-j", uid := "uid-j" } }

/-- Concrete update args for the C2 counterexample: one metadata value with
escaped braces. -/
def argsC2 : VMUpdateArgs :=
  { vmMetadata := { data := [("cfg", "hello \\\x7bworld\\\x7d")] } }

/-- Claim C2 counterexample: with the templating feature flag disabled, the
pass never touches the metadata mapping, so the escaped value is stored
unchanged and differs from the un-escaped form the claim requires. -/
theorem c2_counterexample :
    mapGet (templatedArgs envC2 ctxC2 argsC2).vmMetadata.data "cfg"
        = "hello \\\x7bworld\\\x7d" ∧
    ("hello \\\x7bworld\\\x7d" : String) ≠ "hello \x7bworld\x7d" := by decide

/-- Claim C2 (amended): un-escaping of `\x5c\x7b` / `\x5c\x7d` happens only
when the templating feature flag is enabled; it then happens on every
templating outcome — on a parse or execution error the stored value is the
escape-normalized original, and on success the escape-normalized rendered
output (so for an action-free value such as the example, which the engine
renders to itself, the stored result is the un-escaped value).  With the
flag disabled the value is stored unchanged. -/
theorem c2_amended (env : SessionEnv) (vmCtx : VirtualMachineContext)
    (args : VMUpdateArgs) (k : String)
    (hfss : env.fssEnabled = true)
    (hnd : (args.vmMetadata.data.map Prod.fst).Nodup)
    (hmem : (k, "hello \\\x7bworld\\\x7d") ∈ args.vmMetadata.data)
    (hout : env.templ k "hello \\\x7bworld\\\x7d" = .parseError ∨
            env.templ k "hello \\\x7bworld\\\x7d" = .execError ∨
            env.templ k "hello \\\x7bworld\\\x7d"
              = .success "hello \\\x7bworld\\\x7d") :
    mapGet (templatedArgs env vmCtx args).vmMetadata.data k
      = "hello \x7bworld\x7d" := by
  have hmap := mapGet_map_nodup (fun a b => renderTemplate env a b)
    args.vmMetadata.data k "hello \\\x7bworld\\\x7d" hnd hmem
  simp only [templatedArgs, hfss, if_true, TemplateVMMetadata]
  rw [hmap]
  rcases hout with h | h | h <;> simp only [renderTemplate, h] <;> decide

/-- Concrete environment for the C2 witness: feature flag enabled, templating
fails to parse. -/
def envW2 : SessionEnv :=
  { fssEnabled := true
    templ := fun _ _ => .parseError
    getNetworkDevices := .ok []
    reconfigure := fun _ => none
    customizeCall := fun _ => none }

/-- Concrete VM context for the C2 witness. -/
def ctxW2 : VirtualMachineContext := { vm := { name := "vm-k", uid := "uid-k" } }

/-- Concrete update args for the C2 witness. -/
def argsW2 : VMUpdateArgs :=
  { vmMetadata := { data := [("cfg", "hello \\\x7bworld\\\x7d")] } }

/-- Claim C2 amended-theorem witness: flag on, parse failure, the stored
value is the un-escaped original. -/
theorem c2_amended_witness :
    mapGet (templatedArgs envW2 ctxW2 argsW2).vmMetadata.data "cfg"
      = "hello \x7bworld\x7d" :=
  c2_amended envW2 ctxW2 argsW2 "cfg" rfl (by decide) (by decide) (Or.inl rfl)

end ClaimC2

section ClaimC5

/-- Every update entry lands in the merged extra config. -/
theorem mem_merge_updates (existing : List (Option OptionValue))
    (updates : List (String × String)) (k v : String)
    (hkv : (k, v) ∈ updates) :
    { key := k, value := v : OptionValue } ∈ MergeExtraConfig existing updates := by
  apply List.mem_append_right
  exact List.mem_map.mpr ⟨(k, v), hkv, rfl⟩

/-- Every entry of the merged extra config stems from an existing entry or
from an update. -/
theorem merge_keys (existing : List (Option OptionValue))
    (updates : List (String × String)) (ov : OptionValue)
    (hov : ov ∈ MergeExtraConfig existing updates) :
    some ov ∈ existing ∨ ∃ p ∈ updates, ov = { key := p.1, value := p.2 } := by
  rcases List.mem_append.mp hov with h | h
  · left
    have h2 := List.mem_filter.mp h
    have h3 := List.mem_filterMap.mp h2.1
    obtain ⟨o, ho, hid⟩ := h3
    rw [show o = some ov from hid] at ho
    exact ho
  · right
    obtain ⟨p, hp, hpe⟩ := List.mem_map.mp h
    exact ⟨p, hp, hpe.symm⟩

/-- The cloud-init metadata document string of one pass. -/
def cloudInitMetadataStr (vmCtx : VirtualMachineContext) (args : VMUpdateArgs)
    (ethCards : List String) : String :=
  yamlMarshalCloudInitMetadata
    { instanceID := vmCtx.vm.uid
      localHostname := vmCtx.vm.name
      hostname := vmCtx.vm.name
      network := GetNetplan args.netIfList ethCards args.dnsServers
      publicKeys := mapGet args.vmMetadata.data "ssh-public-keys" }

/-- Value of the guest-info constructor when no userdata is supplied. -/
theorem guestinfo_spec_no_userdata (m : String)
    (config : VirtualMachineConfigInfo) (args : VMUpdateArgs)
    (hud : mapGet args.vmMetadata.data "user-data" = "")
    (hval : mapGet args.vmMetadata.data "value" = "") :
    GetCloudInitGuestInfoCustSpec m config args = .ok
      { extraConfig := MergeExtraConfig config.extraConfig
          [(CloudInitGuestInfoMetadata, gzipB64Str m),
           (CloudInitGuestInfoMetadataEncoding, "gzip+base64")]
        vAppConfigRemoved := some true } := by
  simp only [GetCloudInitGuestInfoCustSpec, EncodeGzipBase64]
  rw [hud, hval]
  simp

/-- Value of the guest-info constructor when non-empty userdata is found
under the primary key: it is normalized and re-encoded. -/
theorem guestinfo_spec_userdata (m : String)
    (config : VirtualMachineConfigInfo) (args : VMUpdateArgs) (u : String)
    (hud : mapGet args.vmMetadata.data "user-data" = u) (hne : u ≠ "") :
    GetCloudInitGuestInfoCustSpec m config args = .ok
      { extraConfig := MergeExtraConfig config.extraConfig
          ([(CloudInitGuestInfoMetadata, gzipB64Str m),
            (CloudInitGuestInfoMetadataEncoding, "gzip+base64")] ++
           [(CloudInitGuestInfoUserdata, gzipB64Str (ungzipB64Str u)),
            (CloudInitGuestInfoUserdataEncoding, "gzip+base64")])
        vAppConfigRemoved := some true } := by
  simp only [GetCloudInitGuestInfoCustSpec, EncodeGzipBase64, TryToDecodeBase64Gzip]
  rw [hud, if_pos hne, if_neg hne]

/-- Value of the guest-info constructor when the primary key is empty and
non-empty userdata is found under the legacy `value` fallback key: it is
normalized and re-encoded just like primary-key userdata. -/
theorem guestinfo_spec_value_fallback (m : String)
    (config : VirtualMachineConfigInfo) (args : VMUpdateArgs) (v : String)
    (hud : mapGet args.vmMetadata.data "user-data" = "")
    (hval : mapGet args.vmMetadata.data "value" = v) (hne : v ≠ "") :
    GetCloudInitGuestInfoCustSpec m config args = .ok
      { extraConfig := MergeExtraConfig config.extraConfig
          ([(CloudInitGuestInfoMetadata, gzipB64Str m),
            (CloudInitGuestInfoMetadataEncoding, "gzip+base64")] ++
           [(CloudInitGuestInfoUserdata, gzipB64Str (ungzipB64Str v)),
            (CloudInitGuestInfoUserdataEncoding, "gzip+base64")])
        vAppConfigRemoved := some true } := by
  simp only [GetCloudInitGuestInfoCustSpec, EncodeGzipBase64, TryToDecodeBase64Gzip]
  rw [hud, hval]
  have hd : (if ("" : String) ≠ "" then ("" : String)
      else if v ≠ "" then v else "") = v := by
    rw [if_neg (fun h => h rfl), if_pos hne]
  rw [hd, if_neg hne]

/-- The CloudInit branch of the selector with a non-prep sub-kind returns the
guest-info constructor's value as the config spec and no cust spec. -/
theorem selectSpecs_cloudinit_guestinfo (env : SessionEnv)
    (vmCtx : VirtualMachineContext) (config : VirtualMachineConfigInfo)
    (args : VMUpdateArgs) (l : List String)
    (htr : args.vmMetadata.transport = VirtualMachineMetadataCloudInitTransport)
    (hannne : mapGet vmCtx.vm.annotations CloudInitTypeAnnotationKey
      ≠ CloudInitTypeValueCloudInitPrep)
    (hnet : env.getNetworkDevices = .ok l)
    (cfg : VirtualMachineConfigSpec)
    (hcfg : GetCloudInitGuestInfoCustSpec (cloudInitMetadataStr vmCtx args l)
      config args = .ok cfg) :
    selectSpecs env vmCtx config args = .ok (some cfg, none) := by
  simp only [cloudInitMetadataStr] at hcfg
  simp only [selectSpecs]
  rw [if_pos htr]
  simp only [customizeCloudInit, GetCloudInitMetadata, hnet]
  rw [if_neg hannne, hcfg]

/-- Claim C5 (amended): on the CloudInit transport with the sub-kind
annotation unset or `guestinfo`, provided the live extra-configuration holds
no entry under the two userdata keys: when neither `user-data` nor the
legacy `value` key holds a non-empty string, the selector returns a non-nil
config spec whose extra-config updates contain the metadata key with a
gzip+base64-encoded value and the metadata encoding marker `"gzip+base64"`,
contain no userdata key and no userdata encoding marker, whose
vApp-config-removed flag is true, and a nil cust spec; when a non-empty
userdata is found under `user-data`, or failing that under the legacy
`value` key, it is normalized to plain text, re-encoded, and stored under
the userdata key with its encoding marker. -/
theorem c5_amended (env : SessionEnv) (vmCtx : VirtualMachineContext)
    (config : VirtualMachineConfigInfo) (args : VMUpdateArgs) (l : List String)
    (htr : args.vmMetadata.transport = VirtualMachineMetadataCloudInitTransport)
    (hann : mapGet vmCtx.vm.annotations CloudInitTypeAnnotationKey = "" ∨
      mapGet vmCtx.vm.annotations CloudInitTypeAnnotationKey
        = CloudInitTypeValueGuestInfo)
    (hnet : env.getNetworkDevices = .ok l)
    (hclean : ∀ ov : OptionValue, some ov ∈ config.extraConfig →
      ov.key ≠ CloudInitGuestInfoUserdata ∧
      ov.key ≠ CloudInitGuestInfoUserdataEncoding) :
    (mapGet args.vmMetadata.data "user-data" = "" →
     mapGet args.vmMetadata.data "value" = "" →
     ∃ cfg, selectSpecs env vmCtx config args = .ok (some cfg, none) ∧
       (∃ md, { key := CloudInitGuestInfoMetadata, value := gzipB64Str md }
         ∈ cfg.extraConfig) ∧
       { key := CloudInitGuestInfoMetadataEncoding, value := "gzip+base64" }
         ∈ cfg.extraConfig ∧
       (∀ ov ∈ cfg.extraConfig, ov.key ≠ CloudInitGuestInfoUserdata ∧
         ov.key ≠ CloudInitGuestInfoUserdataEncoding) ∧
       cfg.vAppConfigRemoved = some true) ∧
    (∀ u, mapGet args.vmMetadata.data "user-data" = u → u ≠ "" →
     ∃ cfg, selectSpecs env vmCtx config args = .ok (some cfg, none) ∧
       { key := CloudInitGuestInfoUserdata, value := gzipB64Str (ungzipB64Str u) }
         ∈ cfg.extraConfig ∧
       { key := CloudInitGuestInfoUserdataEncoding, value := "gzip+base64" }
         ∈ cfg.extraConfig ∧
       cfg.vAppConfigRemoved = some true) ∧
    (∀ v, mapGet args.vmMetadata.data "user-data" = "" →
     mapGet args.vmMetadata.data "value" = v → v ≠ "" →
     ∃ cfg, selectSpecs env vmCtx config args = .ok (some cfg, none) ∧
       { key := CloudInitGuestInfoUserdata, value := gzipB64Str (ungzipB64Str v) }
         ∈ cfg.extraConfig ∧
       { key := CloudInitGuestInfoUserdataEncoding, value := "gzip+base64" }
         ∈ cfg.extraConfig ∧
       cfg.vAppConfigRemoved = some true) := by
  have hannne : mapGet vmCtx.vm.annotations CloudInitTypeAnnotationKey
      ≠ CloudInitTypeValueCloudInitPrep := by
    rcases hann with h | h <;> rw [h] <;> decide
  constructor
  · intro hud hval
    have hcfg := guestinfo_spec_no_userdata (cloudInitMetadataStr vmCtx args l)
      config args hud hval
    refine ⟨_, selectSpecs_cloudinit_guestinfo env vmCtx config args l htr
      hannne hnet _ hcfg, ?_, ?_, ?_, rfl⟩
    · exact ⟨cloudInitMetadataStr vmCtx args l,
        mem_merge_updates _ _ _ _ (by simp)⟩
    · exact mem_merge_updates _ _ _ _ (by simp)
    · intro ov hov
      rcases merge_keys _ _ ov hov with hex | ⟨p, hp, hpe⟩
      · exact hclean ov hex
      · rcases List.mem_cons.mp hp with h1 | h1
        · rw [hpe, h1]
          refine ⟨?_, ?_⟩ <;>
            simp [CloudInitGuestInfoMetadata, CloudInitGuestInfoUserdata,
              CloudInitGuestInfoUserdataEncoding]
        · rw [List.mem_singleton.mp h1] at hpe
          rw [hpe]
          refine ⟨?_, ?_⟩ <;>
            simp [CloudInitGuestInfoMetadataEncoding, CloudInitGuestInfoUserdata,
              CloudInitGuestInfoUserdataEncoding]
  constructor
  · intro u hud hne
    have hcfg := guestinfo_spec_userdata (cloudInitMetadataStr vmCtx args l)
      config args u hud hne
    refine ⟨_, selectSpecs_cloudinit_guestinfo env vmCtx config args l htr
      hannne hnet _ hcfg, ?_, ?_, rfl⟩
    · exact mem_merge_updates _ _ _ _ (by simp)
    · exact mem_merge_updates _ _ _ _ (by simp)
  · intro v hud hval hne
    have hcfg := guestinfo_spec_value_fallback (cloudInitMetadataStr vmCtx args l)
      config args v hud hval hne
    refine ⟨_, selectSpecs_cloudinit_guestinfo env vmCtx config args l htr
      hannne hnet _ hcfg, ?_, ?_, rfl⟩
    · exact mem_merge_updates _ _ _ _ (by simp)
    · exact mem_merge_updates _ _ _ _ (by simp)

/-- Concrete environment for the C5 witness. -/
def envW5 : SessionEnv :=
  { fssEnabled := false
    templ := fun _ _ => .parseError
    getNetworkDevices := .ok []
    reconfigure := fun _ => none
    customizeCall := fun _ => none }

/-- Concrete VM context for the C5 witness. -/
def ctxW5 : VirtualMachineContext := { vm := { name := "vm-l", uid := "uid-l" } }

/-- Concrete live configuration for the C5 witness: empty extra config. -/
def confW5 : VirtualMachineConfigInfo := {}

/-- Concrete update args for the C5 witness: CloudInit transport, no
userdata. -/
def argsW5 : VMUpdateArgs :=
  { vmMetadata := { data := [],
                    transport := VirtualMachineMetadataCloudInitTransport } }

/-- Concrete update args for the C5 witness's legacy-fallback case: CloudInit
transport, `user-data` absent, non-empty userdata under the legacy `value`
key. -/
def argsW5v : VMUpdateArgs :=
  { vmMetadata := { data := [("value", "vvv")],
                    transport := VirtualMachineMetadataCloudInitTransport } }

/-- Claim C5 amended-theorem witness: the end-to-end scenario of the spec at
a concrete input without userdata, and the legacy `value` fallback at a
concrete input carrying userdata only under `value`. -/
theorem c5_amended_witness :
    (∃ cfg, selectSpecs envW5 ctxW5 confW5 argsW5 = .ok (some cfg, none) ∧
      (∃ md, { key := CloudInitGuestInfoMetadata, value := gzipB64Str md }
        ∈ cfg.extraConfig) ∧
      { key := CloudInitGuestInfoMetadataEncoding, value := "gzip+base64" }
        ∈ cfg.extraConfig ∧
      (∀ ov ∈ cfg.extraConfig, ov.key ≠ CloudInitGuestInfoUserdata ∧
        ov.key ≠ CloudInitGuestInfoUserdataEncoding) ∧
      cfg.vAppConfigRemoved = some true) ∧
    (∃ cfg, selectSpecs envW5 ctxW5 confW5 argsW5v = .ok (some cfg, none) ∧
      { key := CloudInitGuestInfoUserdata,
        value := gzipB64Str (ungzipB64Str "vvv") } ∈ cfg.extraConfig ∧
      { key := CloudInitGuestInfoUserdataEncoding, value := "gzip+base64" }
        ∈ cfg.extraConfig ∧
      cfg.vAppConfigRemoved = some true) := by
  constructor
  · have h := c5_amended envW5 ctxW5 confW5 argsW5 [] rfl (Or.inl rfl) rfl
      (fun ov hov => nomatch hov)
    exact h.1 rfl rfl
  · have h := c5_amended envW5 ctxW5 confW5 argsW5v [] rfl (Or.inl rfl) rfl
      (fun ov hov => nomatch hov)
    exact h.2.2 "vvv" rfl rfl (by decide)

/-- Concrete environment for the C5 counterexample. -/
def envX5 : SessionEnv :=
  { fssEnabled := false
    templ := fun _ _ => .parseError
    getNetworkDevices := .ok []
    reconfigure := fun _ => none
    customizeCall := fun _ => none }

/-- Concrete VM context for the C5 counterexample. -/
def ctxX5 : VirtualMachineContext := { vm := { name := "vm-m", uid := "uid-m" } }

/-- Concrete live configuration for the C5 counterexample: the live extra
config already holds a userdata entry. -/
def confX5 : VirtualMachineConfigInfo :=
  { extraConfig := [some { key := CloudInitGuestInfoUserdata, value := "zzz" }] }

/-- Concrete update args for the C5 counterexample: CloudInit transport, no
userdata supplied. -/
def argsX5 : VMUpdateArgs :=
  { vmMetadata := { data := [],
                    transport := VirtualMachineMetadataCloudInitTransport } }

/-- Claim C5 counterexample: no userdata is supplied, yet the produced config
spec's extra-config updates do contain the userdata key, because the merge
preserves the live VM's existing entry under that key. -/
theorem c5_counterexample :
    mapGet argsX5.vmMetadata.data "user-data" = "" ∧
    mapGet argsX5.vmMetadata.data "value" = "" ∧
    ((selectSpecs envX5 ctxX5 confX5 argsX5).toOption.map (fun p =>
        p.1.elim false (fun cfg =>
          cfg.extraConfig.any (fun ov =>
            ov.key == CloudInitGuestInfoUserdata))))
      = some true := by decide

end ClaimC5

section ClaimC7

/-- Claim C7 (amended): on the ExtraConfig transport the selector pairs
`GetExtraConfigCustSpec` with a Linux-prep cust spec; the config spec is nil
when the metadata holds no guest-info-prefixed key; when the live
extra-configuration is empty the config spec's updates are exactly the
prefixed metadata entries, verbatim and in metadata order (in general the
merge also retains the live VM's other entries); the Linux-prep spec carries
the VM name as host name, a UTC hardware clock, the DNS-server list and the
per-NIC settings. -/
theorem c7_amended (env : SessionEnv) (vmCtx : VirtualMachineContext)
    (config : VirtualMachineConfigInfo) (args : VMUpdateArgs)
    (htr : args.vmMetadata.transport
      = VirtualMachineMetadataExtraConfigTransport) :
    (selectSpecs env vmCtx config args
        = .ok (GetExtraConfigCustSpec config args,
               some (GetLinuxPrepCustSpec vmCtx.vm.name args))) ∧
    (args.vmMetadata.data.filter
        (fun p => strHasPrefix ExtraConfigGuestInfoPrefixKey p.1) = [] →
      GetExtraConfigCustSpec config args = none) ∧
    (config.extraConfig = [] →
      ∀ cfg, GetExtraConfigCustSpec config args = some cfg →
        cfg.extraConfig = (args.vmMetadata.data.filter
            (fun p => strHasPrefix ExtraConfigGuestInfoPrefixKey p.1)).map
          (fun p => { key := p.1, value := p.2 })) ∧
    (GetLinuxPrepCustSpec vmCtx.vm.name args).identity
        = .linuxPrep { hostName := { name := vmCtx.vm.name },
                       hwClockUTC := some true } ∧
    (GetLinuxPrepCustSpec vmCtx.vm.name args).globalIPSettings
        = { dnsServerList := args.dnsServers } ∧
    (GetLinuxPrepCustSpec vmCtx.vm.name args).nicSettingMap
        = GetInterfaceCustomizations args.netIfList := by
  refine ⟨?_, ?_, ?_, rfl, rfl, rfl⟩
  · have h1 : args.vmMetadata.transport
        ≠ VirtualMachineMetadataCloudInitTransport := by rw [htr]; decide
    have h2 : args.vmMetadata.transport
        ≠ VirtualMachineMetadataOvfEnvTransport := by rw [htr]; decide
    simp only [selectSpecs]
    rw [if_neg h1, if_neg h2, if_pos htr]
  · intro hfil
    simp [GetExtraConfigCustSpec, hfil]
  · intro hconf cfg hcfg
    simp only [GetExtraConfigCustSpec, hconf] at hcfg
    split at hcfg
    · exact Option.noConfusion hcfg
    · obtain rfl : cfg = _ := (Option.some.injEq _ _ ▸ hcfg).symm
      simp [MergeExtraConfig]

/-- Concrete environment for the C7 witness. -/
def envW7 : SessionEnv :=
  { fssEnabled := false
    templ := fun _ _ => .parseError
    getNetworkDevices := .ok []
    reconfigure := fun _ => none
    customizeCall := fun _ => none }

/-- Concrete VM context for the C7 witness. -/
def ctxW7 : VirtualMachineContext := { vm := { name := "vm-n", uid := "uid-n" } }

/-- Concrete live configuration for the C7 witness: empty extra config. -/
def confW7 : VirtualMachineConfigInfo := {}

/-- Concrete update args for the C7 witness: one prefixed and one
non-prefixed metadata key. -/
def argsW7 : VMUpdateArgs :=
  { vmMetadata := { data := [("guestinfo.x", "7"), ("other", "8")],
                    transport := VirtualMachineMetadataExtraConfigTransport } }

/-- Claim C7 amended-theorem witness at a concrete ExtraConfig input. -/
theorem c7_amended_witness :
    selectSpecs envW7 ctxW7 confW7 argsW7
      = .ok (GetExtraConfigCustSpec confW7 argsW7,
             some (GetLinuxPrepCustSpec ctxW7.vm.name argsW7)) ∧
    GetExtraConfigCustSpec confW7 argsW7 = some
      { extraConfig := [{ key := "guestinfo.x", value := "7" }] } := by
  have h := c7_amended envW7 ctxW7 confW7 argsW7 rfl
  exact ⟨h.1, by decide⟩

/-- Concrete environment for the C7 counterexample. -/
def envX7 : SessionEnv :=
  { fssEnabled := false
    templ := fun _ _ => .parseError
    getNetworkDevices := .ok []
    reconfigure := fun _ => none
    customizeCall := fun _ => none }

/-- Concrete VM context for the C7 counterexample. -/
def ctxX7 : VirtualMachineContext := { vm := { name := "vm-o", uid := "uid-o" } }

/-- Concrete live configuration for the C7 counterexample: one non-prefixed
live entry. -/
def confX7 : VirtualMachineConfigInfo :=
  { extraConfig := [some { key := "other.key", value := "x" }] }

/-- Concrete update args for the C7 counterexample. -/
def argsX7 : VMUpdateArgs :=
  { vmMetadata := { data := [("guestinfo.a", "1")],
                    transport := VirtualMachineMetadataExtraConfigTransport } }

/-- Claim C7 counterexample: the produced config spec's extra-config updates
contain a key without the guest-info prefix (a preserved live entry), so
they do not consist exactly of the prefixed metadata entries. -/
theorem c7_counterexample :
    ((selectSpecs envX7 ctxX7 confX7 argsX7).toOption.map (fun p =>
        p.1.elim false (fun cfg =>
          cfg.extraConfig.any (fun ov =>
            !(strHasPrefix ExtraConfigGuestInfoPrefixKey ov.key)))))
      = some true := by decide

end ClaimC7
